import Mathlib

/-!
Shallow embedding of the credential-management core of the
moleculer-postgres-api repository.

The authoritative sources are:
* `src/services/users.service.js` — the `users` service with the actions
  `register`, `login`, `get`, `changePassword`, the `settings.fields` /
  `entityValidator` configuration, and the `hooks.before.create` /
  `hooks.before.update` password-hashing hooks;
* `src/mixins/encryption.mixin.js` — `hashPassword` / `comparePassword`
  built on the external bcrypt library.

JavaScript strings are embedded as `List Char`.  The external
collaborators (the bcrypt library, the moleculer-db store adapter and the
fastest-validator parameter checker) are modelled by executable Lean
functions that follow their documented contracts; each such model carries
a doc comment saying exactly what it stands for.  Stateful behaviour is
embedded by explicit state passing: every action takes the current user
store and returns its result together with the possibly-updated store and
the list of log lines the call emitted (`console.log` / `logger.info`).
bcrypt's salt generation is nondeterministic in the source, so the salt
freshly generated for a call is passed to the embedded operation as an
explicit argument; theorems that need it assume the salt is free of the
`$` separator character, which holds for every salt bcrypt can generate
(its salts are drawn from a base64 alphabet without `$`).
-/

/-- JavaScript strings are modelled as lists of characters. -/
abbrev Str := List Char

/-- Errors that can escape the embedded operations.

* `moleculerClientError message code typ` models
  `new MoleculerClientError(message, code, type)` thrown by the service
  handlers in `src/services/users.service.js`;
* `mixinError message` models the plain `new Error(message)` thrown by
  `src/mixins/encryption.mixin.js` (the spec taxonomy calls this failure
  `InvalidArgument`);
* `validationError` models the rejection produced by the framework's
  parameter validator before a handler runs;
* `uniqueViolation` models the raw unique-constraint error reported by
  the external store on `insert`;
* `entityNotFound` models the error of the built-in moleculer-db
  `update` action when the id does not exist. -/
inductive Err where
  | moleculerClientError (message : Str) (code : Nat) (typ : Str)
  | mixinError (message : Str)
  | validationError
  | uniqueViolation
  | entityNotFound
deriving DecidableEq

instance {ε α : Type} [DecidableEq ε] [DecidableEq α] : DecidableEq (Except ε α) := fun a b =>
  match a, b with
  | .error x, .error y => decidable_of_iff (x = y) (by simp)
  | .ok x, .ok y => decidable_of_iff (x = y) (by simp)
  | .error _, .ok _ => isFalse (fun h => Except.noConfusion h)
  | .ok _, .error _ => isFalse (fun h => Except.noConfusion h)

/-- A stored user row, after the model of
`src/services/users.service.js` (`model.define`): the stored credential
column is called `password` and holds the bcrypt hash. -/
structure User where
  id : Str
  username : Str
  email : Str
  password : Str
deriving DecidableEq

/-- A user object as it appears in an action response.  `password = none`
models an object from which the `password` property is absent (deleted);
`password = some h` models a response that still carries the stored
hash. -/
structure UserJson where
  id : Str
  username : Str
  email : Str
  password : Option Str
deriving DecidableEq

/-- The success value of the `login` action: `{ user, token }`. -/
structure LoginOut where
  user : UserJson
  token : Str
deriving DecidableEq

/-- The observable outcome of one action call: its result, the user store
after the call, and the log lines the call emitted, in order. -/
structure ActionOut (α : Type) where
  res : Except Err α
  store : List User
  log : List Str
deriving DecidableEq

/-- The fixed `$2b$10$` prefix of every bcrypt hash produced with cost
factor 10 (`bcrypt.genSalt(10)` in the mixin). -/
def bcryptPrefix : Str := ['$', '2', 'b', '$', '1', '0', '$']

/-- Modelled digest step of the external bcrypt library: an arbitrary
total character transformation, standing for the one-way digest.  Its
exact values are irrelevant to every claim; what matters is that the
digest is a deterministic function of salt and password. -/
def scrambleChar (c : Char) : Char := Char.ofNat ((c.toNat + 7) % 55296)

/-- Modelled digest of the external bcrypt library over salt ++ password. -/
def scramble (s : Str) : Str := s.map scrambleChar

/-- Modelled `bcrypt.hash(password, salt)`: a self-describing opaque
string containing the cost prefix, the salt, and a digest computed from
the salt and the password (spec section 4.1: the hash format encodes the
cost and salt used at creation time). -/
def bcryptHash (salt p : Str) : Str :=
  bcryptPrefix ++ salt ++ '$' :: scramble (salt ++ p)

/-- Recovers the salt embedded in a hash string, as `bcrypt.compare`
does: the characters after the cost prefix up to the digest. -/
def extractSalt (h : Str) : Str :=
  (h.drop 7).takeWhile (fun c => c != '$')

/-- Modelled `bcrypt.compare(password, hash)`: recomputes the hash from
the salt embedded in `hash` and compares. -/
def bcryptCompare (p h : Str) : Bool :=
  h == bcryptHash (extractSalt h) p

/-- Message of the error thrown by `hashPassword` on an empty password. -/
def hashErrorMessage : Str := "Password is required for hashing".data

/-- Message of the error thrown by `comparePassword` on an empty argument. -/
def compareErrorMessage : Str := "Both password and hash are required for comparison".data

/-- `hashPassword` from `src/mixins/encryption.mixin.js`: throws on an
empty (falsy) password, otherwise generates a salt and returns the
bcrypt hash.  The freshly generated salt is the explicit `salt`
argument. -/
def hashPassword (salt p : Str) : Except Err Str :=
  if p = [] then .error (.mixinError hashErrorMessage)
  else .ok (bcryptHash salt p)

/-- `comparePassword` from `src/mixins/encryption.mixin.js`.  The first
component is the returned value or thrown error; the second component is
the line printed by the unconditional
`console.log(\x60password ${password} hash ${hash}\x60)` at the top of the
method. -/
def comparePassword (p h : Str) : Except Err Bool × Str :=
  let line := "password ".data ++ p ++ " hash ".data ++ h
  if p = [] ∨ h = [] then (.error (.mixinError compareErrorMessage), line)
  else (.ok (bcryptCompare p h), line)

/-- Models `this.adapter.findOne({ where: { email } })` of the external
store: the first stored row with the given email. -/
def adapterFindOneByEmail (store : List User) (email : Str) : Option User :=
  store.find? (fun x => x.email == email)

/-- Models `this.adapter.findById(id)` / `this.getById(id)` of the
external store. -/
def adapterFindById (store : List User) (i : Str) : Option User :=
  store.find? (fun x => x.id == i)

/-- Models `this.adapter.insert(entity)` of the external store: the
row is inserted unless the unique constraints on username or email are
violated, in which case the store reports a unique-constraint error.
The returned row is the full inserted entity, password column
included. -/
def adapterInsert (store : List User) (u : User) : Except Err (User × List User) :=
  if store.any (fun x => x.email == u.email || x.username == u.username) then
    .error .uniqueViolation
  else
    .ok (u, store ++ [u])

/-- Models `this.adapter.updateById(id, fields)` of the external store
for a password update (spec section 4.3): replaces the password column of
the row with the given id and returns the updated row. -/
def adapterUpdateById (store : List User) (i : Str) (newHash : Str) : Option (User × List User) :=
  match adapterFindById store i with
  | none => none
  | some u =>
    let u2 := { u with password := newHash }
    some (u2, store.map (fun x => if x.id == i then u2 else x))

/-- Models the `type: "email"` check of the framework's parameter
validator, abstracted to the presence of an `@`; every concrete email
used in the theorems below also passes the real pattern. -/
def emailLike (s : Str) : Bool := s.any (fun c => c == '@')

/-- Lower-case hexadecimal digit, as used in UUID strings. -/
def isHexChar (c : Char) : Bool :=
  decide (('0'.toNat ≤ c.toNat ∧ c.toNat ≤ '9'.toNat) ∨
          ('a'.toNat ≤ c.toNat ∧ c.toNat ≤ 'f'.toNat))

/-- Models the `type: "uuid"` check of the framework's parameter
validator: 36 characters, hyphens at positions 8, 13, 18 and 23,
hexadecimal digits elsewhere. -/
def isUuidLike (s : Str) : Bool :=
  decide (s.length = 36) &&
    s.enum.all (fun ic =>
      if ic.1 = 8 ∨ ic.1 = 13 ∨ ic.1 = 18 ∨ ic.1 = 23 then ic.2 == '-'
      else isHexChar ic.2)

/-- The `register` action's parameter schema
(`username: string 3..30, email: email, password: string min 6`),
checked by the framework before the handler runs. -/
def validateRegisterParams (username email password : Str) : Bool :=
  decide (3 ≤ username.length) && decide (username.length ≤ 30) &&
    emailLike email && decide (6 ≤ password.length)

/-- The `login` action's parameter schema
(`email: email, password: string min 1`). -/
def validateLoginParams (email password : Str) : Bool :=
  emailLike email && decide (1 ≤ password.length)

/-- The `changePassword` action's parameter schema
(`id: uuid, oldPassword: string min 1, newPassword: string min 6`). -/
def validateChangeParams (i oldPw newPw : Str) : Bool :=
  isUuidLike i && decide (1 ≤ oldPw.length) && decide (6 ≤ newPw.length)

/-- A user row converted to a response object with the `password`
property deleted, as `login` (via `user.get({plain:true})` plus
`delete userData.password`) and `get` (via `delete user.password`)
produce. -/
def stripPassword (u : User) : UserJson :=
  ⟨u.id, u.username, u.email, none⟩

/-- A user row converted to a response object with the `password`
column still present, as the store adapter returns it from `insert` and
`updateById`. -/
def fullJson (u : User) : UserJson :=
  ⟨u.id, u.username, u.email, some u.password⟩

/-- The hard-coded token literal returned by the `login` handler. -/
def jwtPlaceholder : Str := "JWT_TOKEN_WOULD_GO_HERE".data

/-- The line logged by `this.logger.info(\x60USER : ${user}\x60)` in the
`login` handler; interpolating the store row object yields its default
object stringification, which carries no field values. -/
def userLogLine : Str := "USER : [object Object]".data

/-- The `register` action of `src/services/users.service.js`: framework
parameter validation, pre-check `findOne` by email (conflict throws
`ALREADY_EXISTS` 422), `hashPassword`, then `adapter.insert`, whose
result — the full row — is returned unmodified. -/
def registerAction (salt : Str) (store : List User) (newId : Str)
    (username email password : Str) : ActionOut UserJson :=
  if validateRegisterParams username email password then
    match adapterFindOneByEmail store email with
    | some _ =>
      ⟨.error (.moleculerClientError "Username or email already exists".data 422
        "ALREADY_EXISTS".data), store, []⟩
    | none =>
      match hashPassword salt password with
      | .error e => ⟨.error e, store, []⟩
      | .ok hp =>
        match adapterInsert store ⟨newId, username, email, hp⟩ with
        | .error e => ⟨.error e, store, []⟩
        | .ok (u, st) => ⟨.ok (fullJson u), st, []⟩
  else ⟨.error .validationError, store, []⟩

/-- The `login` action of `src/services/users.service.js`: framework
parameter validation, `findOne` by email (absence throws
`"1 Email or password is invalid"` INVALID_CREDENTIALS 422), the
`logger.info` line, `comparePassword` (mismatch throws
`"2 Email or password is invalid"` INVALID_CREDENTIALS 422), and on
success the stripped user together with the hard-coded token literal. -/
def loginAction (store : List User) (email password : Str) : ActionOut LoginOut :=
  if validateLoginParams email password then
    match adapterFindOneByEmail store email with
    | none =>
      ⟨.error (.moleculerClientError "1 Email or password is invalid".data 422
        "INVALID_CREDENTIALS".data), store, []⟩
    | some user =>
      match comparePassword password user.password with
      | (.error e, line) => ⟨.error e, store, [userLogLine, line]⟩
      | (.ok false, line) =>
        ⟨.error (.moleculerClientError "2 Email or password is invalid".data 422
          "INVALID_CREDENTIALS".data), store, [userLogLine, line]⟩
      | (.ok true, line) =>
        ⟨.ok ⟨stripPassword user, jwtPlaceholder⟩, store, [userLogLine, line]⟩
  else ⟨.error .validationError, store, []⟩

/-- The `get` action of `src/services/users.service.js`: `getById`,
absence throws `"User not found"` USER_NOT_FOUND 404, then
`delete user.password` and return. -/
def getAction (store : List User) (i : Str) : ActionOut UserJson :=
  if isUuidLike i then
    match adapterFindById store i with
    | none =>
      ⟨.error (.moleculerClientError "User not found".data 404 "USER_NOT_FOUND".data),
        store, []⟩
    | some u => ⟨.ok (stripPassword u), store, []⟩
  else ⟨.error .validationError, store, []⟩

/-- The `changePassword` action of `src/services/users.service.js`:
framework parameter validation, `adapter.findById` (absence throws
`"User not found"` 404), `comparePassword` with the old password
(mismatch throws `"Old password is invalid"` INVALID_PASSWORD 422),
`hashPassword` of the new password, then `adapter.updateById`. -/
def changePasswordAction (salt : Str) (store : List User)
    (i oldPw newPw : Str) : ActionOut UserJson :=
  if validateChangeParams i oldPw newPw then
    match adapterFindById store i with
    | none =>
      ⟨.error (.moleculerClientError "User not found".data 404 "USER_NOT_FOUND".data),
        store, []⟩
    | some user =>
      match comparePassword oldPw user.password with
      | (.error e, line) => ⟨.error e, store, [line]⟩
      | (.ok false, line) =>
        ⟨.error (.moleculerClientError "Old password is invalid".data 422
          "INVALID_PASSWORD".data), store, [line]⟩
      | (.ok true, line) =>
        match hashPassword salt newPw with
        | .error e => ⟨.error e, store, [line]⟩
        | .ok hp =>
          match adapterUpdateById store i hp with
          | none => ⟨.error .entityNotFound, store, [line]⟩
          | some (u2, st) => ⟨.ok (fullJson u2), st, [line]⟩
  else ⟨.error .validationError, store, []⟩

/-- The `hooks.before.create` / `hooks.before.update` hook of
`src/services/users.service.js`: `if (ctx.params.password)` — a present
and non-empty (truthy) password is replaced by its hash; an absent or
empty-string password is left untouched. -/
def beforeHookHash (salt : Str) (password : Option Str) : Option Str :=
  password.map (fun p => if p = [] then p else bcryptHash salt p)

/-- Models the built-in moleculer-db `create` action combined with the
service's `hooks.before.create` hook: the hook runs first, then the
handler validates the entity against `settings.entityValidator`
(username 3..30, email, password min 6 — a missing password fails the
required-field check) and inserts; the response is filtered through
`settings.fields`, which exclude `password`. -/
def createAction (salt : Str) (store : List User) (newId : Str)
    (username email : Str) (password : Option Str) : ActionOut UserJson :=
  match beforeHookHash salt password with
  | none => ⟨.error .validationError, store, []⟩
  | some p =>
    if decide (3 ≤ username.length) && decide (username.length ≤ 30) &&
        emailLike email && decide (6 ≤ p.length) then
      match adapterInsert store ⟨newId, username, email, p⟩ with
      | .error e => ⟨.error e, store, []⟩
      | .ok (u, st) => ⟨.ok (stripPassword u), st, []⟩
    else ⟨.error .validationError, store, []⟩

/-- Models the built-in moleculer-db `update` action combined with the
service's `hooks.before.update` hook: the hook runs first, then the
handler calls `adapter.updateById` without entity validation (moleculer-db
validates entities only on create/insert); a missing id yields an
entity-not-found error; the response is filtered through
`settings.fields`. -/
def updateAction (salt : Str) (store : List User) (i : Str)
    (password : Option Str) : ActionOut UserJson :=
  let pw := beforeHookHash salt password
  match adapterFindById store i with
  | none => ⟨.error .entityNotFound, store, []⟩
  | some u =>
    let u2 := { u with password := pw.getD u.password }
    ⟨.ok (stripPassword u2), store.map (fun x => if x.id == i then u2 else x), []⟩

/-- True exactly for strings of the self-describing bcrypt hash shape:
those beginning with the cost prefix. -/
def isHashShaped (s : Str) : Bool := bcryptPrefix.isPrefixOf s

/-- Executable substring test over embedded strings. -/
def strContains (needle : Str) : Str → Bool
  | [] => needle.isPrefixOf []
  | c :: rest => needle.isPrefixOf (c :: rest) || strContains needle rest

/-- Concrete salt fixture, drawn from bcrypt's dollar-free salt alphabet. -/
def salt0 : Str := "s0ltabc".data

/-- Concrete UUID fixture for the stored test user. -/
def aliceId : Str := "123e4567-e89b-42d3-a456-426614174000".data

/-- Concrete stored user fixture whose password is the hash of
`secret1`. -/
def alice : User :=
  ⟨aliceId, "alice".data, "a@x.com".data, bcryptHash salt0 "secret1".data⟩

/-- Concrete UUID fixture for a second stored test user. -/
def bobId : Str := "223e4567-e89b-42d3-a456-426614174000".data

/-- Second concrete stored user fixture whose password is the hash of
`hunter22`. -/
def bob : User :=
  ⟨bobId, "bob".data, "b@y.com".data, bcryptHash salt0 "hunter22".data⟩

theorem takeWhile_append_dollar (s d : Str) (hs : s.all (fun c => c != '$') = true) :
    (s ++ '$' :: d).takeWhile (fun c => c != '$') = s := by
  induction s with
  | nil => simp [List.takeWhile_cons]
  | cons c cs ih =>
    rw [List.all_cons, Bool.and_eq_true] at hs
    simp [List.takeWhile_cons, hs.1, ih hs.2]

theorem drop_seven_bcryptHash (salt p : Str) :
    (bcryptHash salt p).drop 7 = salt ++ '$' :: scramble (salt ++ p) := rfl

theorem extractSalt_bcryptHash (salt p : Str) (hs : salt.all (fun c => c != '$') = true) :
    extractSalt (bcryptHash salt p) = salt := by
  unfold extractSalt
  rw [drop_seven_bcryptHash]
  exact takeWhile_append_dollar salt _ hs

theorem bcryptCompare_roundtrip (salt p : Str) (hs : salt.all (fun c => c != '$') = true) :
    bcryptCompare p (bcryptHash salt p) = true := by
  unfold bcryptCompare
  rw [extractSalt_bcryptHash salt p hs]
  exact beq_self_eq_true _

theorem bcryptHash_ne_nil (salt p : Str) : bcryptHash salt p ≠ [] := by
  simp [bcryptHash, bcryptPrefix]

theorem bcryptHash_length (salt p : Str) :
    (bcryptHash salt p).length = 8 + 2 * salt.length + p.length := by
  simp [bcryptHash, bcryptPrefix, scramble]
  omega

theorem bcryptHash_ne_self (salt p : Str) : bcryptHash salt p ≠ p := by
  intro h
  have h2 := congrArg List.length h
  rw [bcryptHash_length] at h2
  omega

theorem isHashShaped_bcryptHash (salt p : Str) :
    isHashShaped (bcryptHash salt p) = true := by
  rw [isHashShaped, List.isPrefixOf_iff_prefix]
  exact ⟨salt ++ '$' :: scramble (salt ++ p), rfl⟩

/-- C7: for every password p accepted by the hasher (non-empty, since the
mixin throws on a falsy password) and every salt bcrypt can generate
(dollar-free), hashing succeeds, verifying p against the produced hash
returns true, and the produced hash is never equal to p itself. -/
theorem hash_verify_roundtrip_and_hash_ne_password (salt p : Str)
    (hsalt : salt.all (fun c => c != '$') = true) (hp : p ≠ []) :
    hashPassword salt p = .ok (bcryptHash salt p)
    ∧ (comparePassword p (bcryptHash salt p)).1 = .ok true
    ∧ bcryptHash salt p ≠ p := by
  refine ⟨?_, ?_, bcryptHash_ne_self salt p⟩
  · simp [hashPassword, hp]
  · have hne := bcryptHash_ne_nil salt p
    simp [comparePassword, hp, hne, bcryptCompare_roundtrip salt p hsalt]

/-- Witness for C7 at the concrete password `secret1` and salt `s0ltabc`. -/
theorem hash_verify_roundtrip_witness :
    hashPassword salt0 ("secret1".data) = .ok (bcryptHash salt0 ("secret1".data))
    ∧ (comparePassword ("secret1".data) (bcryptHash salt0 ("secret1".data))).1 = .ok true
    ∧ bcryptHash salt0 ("secret1".data) ≠ "secret1".data :=
  hash_verify_roundtrip_and_hash_ne_password salt0 ("secret1".data) (by decide) (by decide)

/-- C8: `hashPassword` fails (with the mixin's invalid-argument error)
exactly when the password is empty; `comparePassword` fails exactly when
either argument is empty; and for non-empty arguments whose comparison
does not match, `comparePassword` returns false rather than an error. -/
theorem hash_verify_empty_arguments_exact_errors :
    (∀ salt p : Str,
      hashPassword salt p = .error (.mixinError hashErrorMessage) ↔ p = [])
    ∧ (∀ p h : Str,
      (comparePassword p h).1 = .error (.mixinError compareErrorMessage) ↔ p = [] ∨ h = [])
    ∧ (∀ p h : Str, p ≠ [] → h ≠ [] → bcryptCompare p h = false →
      (comparePassword p h).1 = .ok false) := by
  refine ⟨?_, ?_, ?_⟩
  · intro salt p
    by_cases hp : p = [] <;> simp [hashPassword, hp]
  · intro p h
    by_cases hp : p = [] <;> by_cases hh : h = [] <;> simp [comparePassword, hp, hh]
  · intro p h hp hh hc
    simp [comparePassword, hp, hh, hc]

/-- Witness for C8: empty password, empty hash, and a concrete mismatch. -/
theorem hash_verify_empty_arguments_witness :
    hashPassword salt0 ([] : Str) = .error (.mixinError hashErrorMessage)
    ∧ (comparePassword ("abcdef".data) ([] : Str)).1 = .error (.mixinError compareErrorMessage)
    ∧ (comparePassword ("abcdef".data) ("zzzz".data)).1 = .ok false :=
  ⟨(hash_verify_empty_arguments_exact_errors.1 salt0 []).mpr rfl,
    (hash_verify_empty_arguments_exact_errors.2.1 ("abcdef".data) []).mpr (Or.inr rfl),
    hash_verify_empty_arguments_exact_errors.2.2 ("abcdef".data) ("zzzz".data)
      (by decide) (by decide) (by decide)⟩

/-- C5: when the store already holds exactly one user with the requested
email (and the parameters pass the schema check), `register` fails with
the ALREADY_EXISTS client error at the pre-check, leaves the store
unchanged, and the store still contains exactly one user with that
email. -/
theorem register_existing_email_fails_already_exists
    (salt : Str) (store : List User) (newId username email password : Str)
    (hvalid : validateRegisterParams username email password = true)
    (hcount : store.countP (fun x => x.email == email) = 1) :
    registerAction salt store newId username email password =
      ⟨.error (.moleculerClientError "Username or email already exists".data 422
        "ALREADY_EXISTS".data), store, []⟩
    ∧ (registerAction salt store newId username email password).store.countP
        (fun x => x.email == email) = 1 := by
  have hpos : 0 < store.countP (fun x => x.email == email) := by omega
  rw [List.countP_pos_iff] at hpos
  have hsome : (store.find? (fun x => x.email == email)).isSome := by
    rw [List.find?_isSome]; exact hpos
  cases hf : store.find? (fun x => x.email == email) with
  | none => rw [hf] at hsome; simp at hsome
  | some u =>
    have hmain : registerAction salt store newId username email password =
        ⟨.error (.moleculerClientError "Username or email already exists".data 422
          "ALREADY_EXISTS".data), store, []⟩ := by
      simp [registerAction, hvalid, adapterFindOneByEmail, hf]
    exact ⟨hmain, by rw [hmain]; exact hcount⟩

/-- Witness for C5: a second registration with the already-stored email
`a@x.com` fails with ALREADY_EXISTS and the store keeps exactly one such
user. -/
theorem register_existing_email_witness :
    registerAction salt0 [alice] ("nid".data) ("alice2".data) ("a@x.com".data)
        ("secret2".data)
      = ⟨.error (.moleculerClientError "Username or email already exists".data 422
          "ALREADY_EXISTS".data), [alice], []⟩
    ∧ (registerAction salt0 [alice] ("nid".data) ("alice2".data) ("a@x.com".data)
        ("secret2".data)).store.countP (fun x => x.email == "a@x.com".data) = 1 :=
  register_existing_email_fails_already_exists salt0 [alice] ("nid".data) ("alice2".data)
    ("a@x.com".data) ("secret2".data) (by decide) (by decide)

/-- C10: `register` rejects any password shorter than 6 characters with
the framework validation error before touching the store or the hasher
(the store comes back unchanged and nothing is logged); `changePassword`
likewise rejects a `newPassword` shorter than 6 characters; and the
`changePassword` schema accepts any non-empty `oldPassword` (together
with a well-formed id and a long-enough new password). -/
theorem short_password_rejected_by_validation :
    (∀ (salt : Str) (store : List User) (newId username email password : Str),
      password.length < 6 →
      registerAction salt store newId username email password =
        ⟨.error .validationError, store, []⟩)
    ∧ (∀ (salt : Str) (store : List User) (i oldPw newPw : Str),
      newPw.length < 6 →
      changePasswordAction salt store i oldPw newPw =
        ⟨.error .validationError, store, []⟩)
    ∧ (∀ i oldPw newPw : Str, isUuidLike i = true → oldPw ≠ [] → 6 ≤ newPw.length →
      validateChangeParams i oldPw newPw = true) := by
  refine ⟨?_, ?_, ?_⟩
  · intro salt store newId username email password h
    have hv : validateRegisterParams username email password = false := by
      simp [validateRegisterParams]
      omega
    simp [registerAction, hv]
  · intro salt store i oldPw newPw h
    have hv : validateChangeParams i oldPw newPw = false := by
      simp [validateChangeParams]
      omega
    simp [changePasswordAction, hv]
  · intro i oldPw newPw hi ho hn
    have ho1 : 1 ≤ oldPw.length := List.length_pos.mpr ho
    simp [validateChangeParams, hi, ho1, hn]

/-- Witness for C10: the 3-character password `abc` is rejected by both
operations, and the schema accepts the 1-character old password `x`. -/
theorem short_password_rejected_witness :
    registerAction salt0 [] ("nid".data) ("bobby".data) ("b@x.com".data) ("abc".data)
      = ⟨.error .validationError, [], []⟩
    ∧ changePasswordAction salt0 [alice] aliceId ("secret1".data) ("abc".data)
      = ⟨.error .validationError, [alice], []⟩
    ∧ validateChangeParams aliceId ("x".data) ("newpass1".data) = true :=
  ⟨short_password_rejected_by_validation.1 salt0 [] ("nid".data) ("bobby".data)
      ("b@x.com".data) ("abc".data) (by decide),
    short_password_rejected_by_validation.2.1 salt0 [alice] aliceId ("secret1".data)
      ("abc".data) (by decide),
    short_password_rejected_by_validation.2.2 aliceId ("x".data) ("newpass1".data)
      (by decide) (by decide) (by decide)⟩

/-- C6: when the id exists but the supplied old password does not verify
against the stored hash, `changePassword` fails with the
INVALID_PASSWORD client error and leaves the store unchanged, so a
subsequent login with the real old password still succeeds.  The stored
hash is `bcryptHash s q` for the real old password `q`; `u` is the first
store row both for the id and for its email. -/
theorem changePassword_wrong_old_password_rejected
    (salt s q : Str) (store : List User) (i oldPw newPw : Str) (u : User)
    (hvalid : validateChangeParams i oldPw newPw = true)
    (hfind : adapterFindById store i = some u)
    (hfindEmail : adapterFindOneByEmail store u.email = some u)
    (hemail : emailLike u.email = true)
    (hpw : u.password = bcryptHash s q)
    (hs : s.all (fun c => c != '$') = true)
    (hq : q ≠ [])
    (hwrong : bcryptCompare oldPw u.password = false) :
    changePasswordAction salt store i oldPw newPw =
      ⟨.error (.moleculerClientError "Old password is invalid".data 422
        "INVALID_PASSWORD".data), store,
        ["password ".data ++ oldPw ++ " hash ".data ++ u.password]⟩
    ∧ (loginAction store u.email q).res = .ok ⟨stripPassword u, jwtPlaceholder⟩ := by
  have hv2 := hvalid
  simp only [validateChangeParams, Bool.and_eq_true, decide_eq_true_eq] at hv2
  obtain ⟨⟨hu, hol⟩, hnl⟩ := hv2
  have holdne : oldPw ≠ [] := List.length_pos.mp hol
  have hupne : u.password ≠ [] := by rw [hpw]; exact bcryptHash_ne_nil s q
  have hcmp : comparePassword oldPw u.password =
      (.ok false, "password ".data ++ oldPw ++ " hash ".data ++ u.password) := by
    simp [comparePassword, holdne, hupne, hwrong]
  constructor
  · simp [changePasswordAction, hvalid, hfind, hcmp]
  · have hq1 : 1 ≤ q.length := List.length_pos.mpr hq
    have hlv : validateLoginParams u.email q = true := by
      simp [validateLoginParams, hemail, hq1]
    have hcmp2 : comparePassword q u.password =
        (.ok true, "password ".data ++ q ++ " hash ".data ++ u.password) := by
      simp [comparePassword, hq, hupne]
      rw [hpw]
      exact bcryptCompare_roundtrip s q hs
    simp [loginAction, hlv, hfindEmail, hcmp2]

/-- Witness for C6: with the stored user `alice` (hash of `secret1`),
changing the password with the wrong old password `wrongold9` fails with
INVALID_PASSWORD and `alice` can still log in with `secret1`. -/
theorem changePassword_wrong_old_password_witness :
    changePasswordAction salt0 [alice] aliceId ("wrongold9".data) ("newpass1".data)
      = ⟨.error (.moleculerClientError "Old password is invalid".data 422
          "INVALID_PASSWORD".data), [alice],
          ["password ".data ++ "wrongold9".data ++ " hash ".data ++ alice.password]⟩
    ∧ (loginAction [alice] alice.email ("secret1".data)).res
      = .ok ⟨stripPassword alice, jwtPlaceholder⟩ :=
  changePassword_wrong_old_password_rejected salt0 salt0 ("secret1".data) [alice]
    aliceId ("wrongold9".data) ("newpass1".data) alice
    (by decide) (by decide) (by decide) (by decide) rfl (by decide) (by decide) (by decide)

theorem adapterInsert_cases (store : List User) (u : User) :
    adapterInsert store u = .error .uniqueViolation ∨
    adapterInsert store u = .ok (u, store ++ [u]) := by
  unfold adapterInsert
  split
  · exact Or.inl rfl
  · exact Or.inr rfl

/-- C9 counterexample: the generic `update` write path carries the
empty-string password parameter to the store without passing it through
the hasher — the `hooks.before.update` guard `if (ctx.params.password)`
treats the empty string as falsy and skips hashing, and the update path
performs no entity validation.  The store ends up holding the raw
parameter, which is not of the hash shape, in place of a hash. -/
theorem update_empty_password_reaches_store_unhashed :
    (updateAction salt0 [alice] aliceId (some ([] : Str))).store
      = [{ alice with password := [] }]
    ∧ isHashShaped ([] : Str) = false
    ∧ alice.password ≠ [] := by decide

/-- C9 (amended): every write path of the users service that carries a
non-empty password parameter (the `register` action, and the generic
`create` and `update` actions via their before-hooks) hashes it before it
reaches the store: after any of the three calls, every stored password is
either the bcrypt hash of the supplied password or a password that was
already stored before the call. -/
theorem write_paths_hash_nonempty_passwords
    (salt : Str) (store : List User) (i newId username email p : Str)
    (hp : p ≠ []) :
    (∀ x ∈ (updateAction salt store i (some p)).store,
      x.password = bcryptHash salt p ∨ x.password ∈ store.map User.password)
    ∧ (∀ x ∈ (createAction salt store newId username email (some p)).store,
      x.password = bcryptHash salt p ∨ x.password ∈ store.map User.password)
    ∧ (∀ x ∈ (registerAction salt store newId username email p).store,
      x.password = bcryptHash salt p ∨ x.password ∈ store.map User.password) := by
  have hbase : ∀ x ∈ store, x.password ∈ store.map User.password :=
    fun x hx => List.mem_map_of_mem _ hx
  have hbh : beforeHookHash salt (some p) = some (bcryptHash salt p) := by
    simp [beforeHookHash, hp]
  refine ⟨?_, ?_, ?_⟩
  · intro x hx
    simp only [updateAction, hbh, Option.getD_some] at hx
    split at hx
    · exact Or.inr (hbase x hx)
    · rename_i u heq
      have hx2 : x ∈ store.map
          (fun y => if y.id == i then { u with password := bcryptHash salt p } else y) := hx
      rcases List.mem_map.mp hx2 with ⟨y, hy, hxy⟩
      by_cases hid : (y.id == i) = true
      · rw [if_pos hid] at hxy
        exact Or.inl (by rw [← hxy])
      · rw [if_neg hid] at hxy
        exact Or.inr (hxy ▸ hbase y hy)
  · intro x hx
    simp only [createAction, hbh] at hx
    by_cases hv : (decide (3 ≤ username.length) && decide (username.length ≤ 30) &&
        emailLike email && decide (6 ≤ (bcryptHash salt p).length)) = true
    · rw [if_pos hv] at hx
      rcases adapterInsert_cases store ⟨newId, username, email, bcryptHash salt p⟩ with he | hok
      · rw [he] at hx
        exact Or.inr (hbase x hx)
      · rw [hok] at hx
        have hx2 : x ∈ store ++ [(⟨newId, username, email, bcryptHash salt p⟩ : User)] := hx
        rcases List.mem_append.mp hx2 with h1 | h2
        · exact Or.inr (hbase x h1)
        · have hx3 : x = ⟨newId, username, email, bcryptHash salt p⟩ := by simpa using h2
          exact Or.inl (by rw [hx3])
    · rw [if_neg hv] at hx
      exact Or.inr (hbase x hx)
  · intro x hx
    by_cases hv : validateRegisterParams username email p = true
    · simp only [registerAction, hv, if_true] at hx
      split at hx
      · exact Or.inr (hbase x hx)
      · have hhp : hashPassword salt p = .ok (bcryptHash salt p) := by
          simp [hashPassword, hp]
        rw [hhp] at hx
        dsimp only at hx
        rcases adapterInsert_cases store ⟨newId, username, email, bcryptHash salt p⟩ with he | hok
        · rw [he] at hx
          exact Or.inr (hbase x hx)
        · rw [hok] at hx
          have hx2 : x ∈ store ++ [(⟨newId, username, email, bcryptHash salt p⟩ : User)] := hx
          rcases List.mem_append.mp hx2 with h1 | h2
          · exact Or.inr (hbase x h1)
          · have hx3 : x = ⟨newId, username, email, bcryptHash salt p⟩ := by simpa using h2
            exact Or.inl (by rw [hx3])
    · simp only [registerAction, hv, if_false, Bool.false_eq_true] at hx
      exact Or.inr (hbase x hx)

/-- Witness for the amended C9: updating `alice` with the non-empty
password `newpass1` leaves the store holding only hashes — the touched
row's password is the bcrypt hash of `newpass1`. -/
theorem write_paths_hash_witness :
    ({ alice with password := bcryptHash salt0 ("newpass1".data) } : User).password
      = bcryptHash salt0 ("newpass1".data)
    ∨ ({ alice with password := bcryptHash salt0 ("newpass1".data) } : User).password
      ∈ [alice].map User.password :=
  (write_paths_hash_nonempty_passwords salt0 [alice] aliceId ("nid".data) ("bobby".data)
      ("b@x.com".data) ("newpass1".data) (by decide)).1
    { alice with password := bcryptHash salt0 ("newpass1".data) } (by decide)

/-- C1 (failing input): a successful `register` call returns the row
exactly as the store's `insert` produced it, with the `password` column
(the bcrypt hash) still present — the handler returns
`this.adapter.insert(...)` without stripping, so the response is not free
of a password field. -/
theorem register_response_contains_password_hash :
    (registerAction salt0 [] ("new-id".data) ("bobby".data) ("b@x.com".data)
        ("secret1".data)).res
      = .ok ⟨"new-id".data, "bobby".data, "b@x.com".data,
          some (bcryptHash salt0 ("secret1".data))⟩
    ∧ (some (bcryptHash salt0 ("secret1".data)) : Option Str) ≠ none := by decide

/-- C2 (failing input): a `login` call that reaches password
verification logs, via the `console.log` in `comparePassword`, a line
that contains the plaintext password `secret1` verbatim. -/
theorem login_logs_plaintext_password :
    (loginAction [alice] ("a@x.com".data) ("secret1".data)).log
      = [userLogLine,
         "password ".data ++ "secret1".data ++ " hash ".data ++ alice.password]
    ∧ strContains ("secret1".data)
        ("password ".data ++ "secret1".data ++ " hash ".data ++ alice.password) = true := by
  decide

/-- C3 (failing input): a successful `login` returns the user with the
password removed, but its token is the hard-coded literal
`JWT_TOKEN_WOULD_GO_HERE`, identical for two different users, hence not
bound to the claims {id, username, email} of the logged-in user. -/
theorem login_token_is_hardcoded_placeholder :
    (loginAction [alice] ("a@x.com".data) ("secret1".data)).res
      = .ok ⟨⟨aliceId, "alice".data, "a@x.com".data, none⟩, jwtPlaceholder⟩
    ∧ (loginAction [bob] ("b@y.com".data) ("hunter22".data)).res
      = .ok ⟨⟨bobId, "bob".data, "b@y.com".data, none⟩, jwtPlaceholder⟩ := by decide

/-- C4 (failing input): the unknown-email login failure and the
wrong-password login failure both carry code 422 and type
INVALID_CREDENTIALS, but their messages differ (`1 Email or password is
invalid` versus `2 Email or password is invalid`), so the two failures
are distinguishable by a caller. -/
theorem login_failures_have_distinct_messages :
    (loginAction [alice] ("missing@x.com".data) ("anything1".data)).res
      = .error (.moleculerClientError "1 Email or password is invalid".data 422
          "INVALID_CREDENTIALS".data)
    ∧ (loginAction [alice] ("a@x.com".data) ("wrongpass".data)).res
      = .error (.moleculerClientError "2 Email or password is invalid".data 422
          "INVALID_CREDENTIALS".data)
    ∧ "1 Email or password is invalid".data ≠ "2 Email or password is invalid".data := by
  decide
